import Mathlib

/-!
Verification of the navigation math in this repository.

The two source files embedded here are magn_dgr_cal.py (true course,
magnetic course and great-circle distance) and
validation_tools/flight_time_cal.py (wind correction angle, ground speed
and flight time).  Python floats are modelled by real numbers.  The Python
float modulo with a positive divisor is a - b * floor (a / b), and the
Python builtin round(x, 1) is modelled by rounding 10 * x to the nearest
integer and dividing by 10 (Python rounds half to even at exact ties; no
statement below depends on a tie).
-/

open Real

noncomputable section

/-- Python float modulo: for the positive divisors used in the sources,
a % b = a - b * floor (a / b). -/
def pymod (a b : ℝ) : ℝ := a - b * ⌊a / b⌋

/-- Model of the Python builtin round(x, 1): round 10 * x to the nearest
integer, divide by 10. -/
def pyRound1 (x : ℝ) : ℝ := ((round (10 * x) : ℤ) : ℝ) / 10

/-- DEG_TO_RAD conversion of MagneticCourseCalculator, also math.radians. -/
def radians (d : ℝ) : ℝ := d * (π / 180)

/-- RAD_TO_DEG conversion of MagneticCourseCalculator, also math.degrees. -/
def degrees (r : ℝ) : ℝ := r * (180 / π)

/-- Mathematical model of math.atan2 (the C convention; the signed float
zeros both collapse to the single real 0). -/
def atan2 (y x : ℝ) : ℝ :=
  if 0 < x then arctan (y / x)
  else if x < 0 then (if 0 ≤ y then arctan (y / x) + π else arctan (y / x) - π)
  else if 0 < y then π / 2
  else if y < 0 then -(π / 2)
  else 0

/-- Regional magnetic variation constant of MagneticCourseCalculator. -/
def MAGNETIC_VARIATION : ℝ := -4.1

/-- Earth radius in nautical miles, constant of MagneticCourseCalculator. -/
def EARTH_RADIUS_NM : ℝ := 3443.89849

/-- MagneticCourseCalculator.calculate_true_course.  The try block cannot
raise (math.sin, math.cos and math.atan2 are total), so the except branch
returning 0 is omitted. -/
def calculate_true_course (lat1 lon1 lat2 lon2 : ℝ) : ℝ :=
  let phi1 := radians lat1
  let phi2 := radians lat2
  let delta_lambda := radians (lon2 - lon1)
  let y := Real.sin delta_lambda * Real.cos phi2
  let x := Real.cos phi1 * Real.sin phi2 -
    Real.sin phi1 * Real.cos phi2 * Real.cos delta_lambda
  let bearing_rad := atan2 y x
  let bearing_deg := degrees bearing_rad
  let true_course := pymod (bearing_deg + 360) 360
  pyRound1 true_course

/-- MagneticCourseCalculator.calculate_magnetic_course: returns the pair
of the true course and the rounded, normalized magnetic course. -/
def calculate_magnetic_course (lat1 lon1 lat2 lon2 : ℝ) : ℝ × ℝ :=
  let true_course := calculate_true_course lat1 lon1 lat2 lon2
  let magnetic_course := true_course + MAGNETIC_VARIATION
  let magnetic_course_n := pymod (magnetic_course + 360) 360
  (true_course, pyRound1 magnetic_course_n)

/-- The haversine intermediate a of
MagneticCourseCalculator.calculate_distance. -/
def haversine_a (lat1 lon1 lat2 lon2 : ℝ) : ℝ :=
  let phi1 := radians lat1
  let phi2 := radians lat2
  let delta_phi := radians (lat2 - lat1)
  let delta_lambda := radians (lon2 - lon1)
  Real.sin (delta_phi / 2) * Real.sin (delta_phi / 2) +
    Real.cos phi1 * Real.cos phi2 *
      Real.sin (delta_lambda / 2) * Real.sin (delta_lambda / 2)

/-- The tail of MagneticCourseCalculator.calculate_distance after the
haversine intermediate a: math.sqrt raises ValueError on a negative
argument, which the except branch turns into the return value 0. -/
def distance_from_a (a : ℝ) : ℝ :=
  if a < 0 ∨ 1 - a < 0 then 0
  else pyRound1 (EARTH_RADIUS_NM *
    (2 * atan2 (Real.sqrt a) (Real.sqrt (1 - a))))

/-- MagneticCourseCalculator.calculate_distance. -/
def calculate_distance (lat1 lon1 lat2 lon2 : ℝ) : ℝ :=
  distance_from_a (haversine_a lat1 lon1 lat2 lon2)

/-- Constant magnetic_variation of flight_time_cal.py. -/
def magnetic_variation : ℝ := 0

/-- Constant true_air_speed of flight_time_cal.py. -/
def true_air_speed : ℝ := 120

/-- Possible outcomes of calculate_flight_time in flight_time_cal.py: the
three early returns triggered by printed error messages, or the printed
numeric results. -/
inductive FTOutcome
  | windTooStrong
  | groundSpeedFail
  | groundSpeedTooLow
  | ok (wca_deg ground_speed : ℝ) (flight_time : ℤ)

/-- Argument passed to math.asin in flight_time_cal.py; math.asin raises
ValueError exactly when this argument has absolute value above 1. -/
def asinArg (wind_dir wind_speed mag_course : ℝ) : ℝ :=
  (wind_speed / true_air_speed) *
    Real.sin (radians wind_dir - radians (mag_course - magnetic_variation))

/-- Final part of calculate_flight_time: reject a nonpositive ground
speed, otherwise report the flight time in minutes rounded up. -/
def flight_time_step (wca_deg ground_speed distance_nm : ℝ) : FTOutcome :=
  if ground_speed ≤ 0 then .groundSpeedTooLow
  else .ok wca_deg ground_speed ⌈distance_nm / ground_speed * 60⌉

/-- calculate_flight_time of flight_time_cal.py, parametrized by the four
input quantities that the script hardcodes (wind direction 180, wind
speed 90, magnetic course 86, distance 37.2; see runFlightTimeScript).
The try block holds two calls of math.asin: the wind-correction-angle
computation itself, and a debug print of asin(wind_speed /
true_air_speed), which raises the same caught ValueError whenever
wind_speed exceeds true_air_speed in absolute value even though the first
asin succeeded; both raises end in the wind-too-strong return.  Python
float division by zero raises ZeroDivisionError, caught by the except
branch of the general ground-speed computation. -/
def calculate_flight_time (wind_dir wind_speed mag_course distance_nm : ℝ) :
    FTOutcome :=
  let true_course := mag_course - magnetic_variation
  let wind_dir_rad := radians wind_dir
  let true_course_rad := radians true_course
  if 1 < |asinArg wind_dir wind_speed mag_course| then .windTooStrong
  else if 1 < |wind_speed / true_air_speed| then .windTooStrong
  else
    let wca_rad := Real.arcsin (asinArg wind_dir wind_speed mag_course)
    let wca_deg := degrees wca_rad
    if pyRound1 (degrees true_course_rad) = pyRound1 wind_dir then
      flight_time_step wca_deg (true_air_speed - wind_speed) distance_nm
    else if Real.sin wca_rad = 0 then .groundSpeedFail
    else
      flight_time_step wca_deg
        (wind_speed * Real.sin (wind_dir_rad - true_course_rad - wca_rad) /
          Real.sin wca_rad)
        distance_nm

/-- The run of flight_time_cal.py with its hardcoded inputs. -/
def runFlightTimeScript : FTOutcome := calculate_flight_time 180 90 86 37.2

/-! Helper lemmas about the float-model primitives. -/

lemma pymod_nonneg (a : ℝ) {b : ℝ} (hb : 0 < b) : 0 ≤ pymod a b := by
  have h : (⌊a / b⌋ : ℝ) ≤ a / b := Int.floor_le _
  have h2 : b * (⌊a / b⌋ : ℝ) ≤ b * (a / b) :=
    mul_le_mul_of_nonneg_left h hb.le
  have h3 : b * (a / b) = a := by field_simp
  unfold pymod
  linarith

lemma pymod_lt (a : ℝ) {b : ℝ} (hb : 0 < b) : pymod a b < b := by
  have h : a / b - 1 < (⌊a / b⌋ : ℝ) := Int.sub_one_lt_floor _
  have h2 : b * (a / b - 1) < b * (⌊a / b⌋ : ℝ) := (mul_lt_mul_left hb).2 h
  have h3 : b * (a / b) = a := by field_simp
  have h4 : b * (a / b - 1) = a - b := by rw [mul_sub, h3]; ring
  unfold pymod
  linarith

lemma pymod_eq_self {a b : ℝ} (hb : 0 < b) (h0 : 0 ≤ a) (hab : a < b) :
    pymod a b = a := by
  have h1 : ⌊a / b⌋ = 0 := by
    rw [Int.floor_eq_zero_iff]
    exact ⟨div_nonneg h0 hb.le, (div_lt_one hb).2 hab⟩
  unfold pymod
  rw [h1]
  simp

lemma pymod_eq_sub {a b : ℝ} (hb : 0 < b) (h0 : b ≤ a) (hab : a < 2 * b) :
    pymod a b = a - b := by
  have h1 : ⌊a / b⌋ = 1 := by
    rw [Int.floor_eq_iff]
    constructor
    · push_cast
      exact (one_le_div hb).2 h0
    · push_cast
      rw [div_lt_iff₀ hb]
      linarith
  unfold pymod
  rw [h1]
  push_cast
  ring

lemma round_mono_le {x y : ℝ} (h : x ≤ y) : round x ≤ round y := by
  rw [round_eq, round_eq]
  exact Int.floor_mono (by linarith)

lemma round_ge_zero {x : ℝ} (h : 0 ≤ x) : 0 ≤ round x := by
  have := round_mono_le h
  rwa [round_zero] at this

lemma round_le_int {x : ℝ} {n : ℤ} (h : x < n) : round x ≤ n := by
  rw [round_eq]
  have h1 : ⌊x + 1 / 2⌋ < n + 1 := by
    rw [Int.floor_lt]
    push_cast
    linarith
  omega

lemma round_ge_int {x : ℝ} {n : ℤ} (h : (n : ℝ) ≤ x) : n ≤ round x := by
  have := round_mono_le h
  rwa [round_intCast] at this

lemma pyRound1_int_div (m : ℤ) : pyRound1 ((m : ℝ) / 10) = (m : ℝ) / 10 := by
  unfold pyRound1
  rw [show (10 : ℝ) * ((m : ℝ) / 10) = (m : ℝ) by ring, round_intCast]

lemma pyRound1_eval_int (m : ℤ) : pyRound1 ((m : ℝ)) = (m : ℝ) := by
  unfold pyRound1
  rw [show (10 : ℝ) * (m : ℝ) = (((10 * m : ℤ) : ℝ)) by push_cast; ring,
    round_intCast]
  push_cast
  ring

lemma degrees_radians (x : ℝ) : degrees (radians x) = x := by
  unfold degrees radians
  field_simp

/-! Helper lemmas about atan2. -/

lemma atan2_of_pos_x {y x : ℝ} (hx : 0 < x) : atan2 y x = arctan (y / x) := by
  unfold atan2
  rw [if_pos hx]

lemma atan2_zero_zero : atan2 0 0 = 0 := by
  unfold atan2
  norm_num

lemma atan2_pos_y_zero {y : ℝ} (hy : 0 < y) : atan2 y 0 = π / 2 := by
  unfold atan2
  rw [if_neg (lt_irrefl 0), if_neg (lt_irrefl 0), if_pos hy]

lemma atan2_neg_y_zero {y : ℝ} (hy : y < 0) : atan2 y 0 = -(π / 2) := by
  unfold atan2
  rw [if_neg (lt_irrefl 0), if_neg (lt_irrefl 0), if_neg (by linarith),
    if_pos hy]

lemma arctan_nonneg_of {x : ℝ} (h : 0 ≤ x) : 0 ≤ arctan x := by
  have h2 := arctan_strictMono.monotone h
  rwa [arctan_zero] at h2

lemma arctan_pos_of {x : ℝ} (h : 0 < x) : 0 < arctan x := by
  have h2 := arctan_strictMono h
  rwa [arctan_zero] at h2

lemma arctan_le_self_of {x : ℝ} (h : 0 ≤ x) : arctan x ≤ x := by
  rcases eq_or_lt_of_le h with h1 | h1
  · rw [← h1, arctan_zero]
  · have h2 : 0 < arctan x := arctan_pos_of h1
    have h3 : arctan x < π / 2 := arctan_lt_pi_div_two x
    have h4 : arctan x < Real.tan (arctan x) := lt_tan h2 h3
    rw [tan_arctan] at h4
    exact h4.le

lemma atan2_of_neg_x_nonneg_y {y x : ℝ} (hx : x < 0) (hy : 0 ≤ y) :
    atan2 y x = arctan (y / x) + π := by
  unfold atan2
  rw [if_neg (by linarith), if_pos hx, if_pos hy]

lemma atan2_nonneg {y x : ℝ} (hy : 0 ≤ y) : 0 ≤ atan2 y x := by
  rcases lt_trichotomy 0 x with hx | hx | hx
  · rw [atan2_of_pos_x hx]
    exact arctan_nonneg_of (div_nonneg hy hx.le)
  · rcases hy.lt_or_eq with hy2 | hy2
    · rw [← hx, atan2_pos_y_zero hy2]
      linarith [pi_pos]
    · rw [← hx, ← hy2, atan2_zero_zero]
  · rw [atan2_of_neg_x_nonneg_y hx hy]
    have hp := neg_pi_div_two_lt_arctan (y / x)
    have hq := pi_pos
    linarith

lemma pyRound1_zero : pyRound1 0 = 0 := by
  unfold pyRound1
  rw [mul_zero, round_zero]
  norm_num

lemma pyRound1_nonneg {x : ℝ} (h : 0 ≤ x) : 0 ≤ pyRound1 x := by
  unfold pyRound1
  have h2 : (0 : ℤ) ≤ round (10 * x) := round_ge_zero (by linarith)
  exact div_nonneg (by exact_mod_cast h2) (by norm_num)

/-! Helper lemmas about the haversine intermediate. -/

lemma haversine_core_eq (P Q L : ℝ) :
    Real.sin ((Q - P) / 2) * Real.sin ((Q - P) / 2) +
        Real.cos P * Real.cos Q * Real.sin (L / 2) * Real.sin (L / 2) =
      (1 - Real.cos (Q - P)) / 2 +
        (Real.cos (Q - P) + Real.cos (Q + P)) / 2 *
          (Real.sin (L / 2) * Real.sin (L / 2)) := by
  have h1 : Real.sin ((Q - P) / 2) * Real.sin ((Q - P) / 2) =
      (1 - Real.cos (Q - P)) / 2 := by
    have hs := Real.sin_sq_eq_half_sub ((Q - P) / 2)
    rw [show 2 * ((Q - P) / 2) = Q - P by ring] at hs
    nlinarith [hs]
  have h2 : Real.cos P * Real.cos Q =
      (Real.cos (Q - P) + Real.cos (Q + P)) / 2 := by
    have ha := Real.cos_add Q P
    have hb := Real.cos_sub Q P
    nlinarith [ha, hb]
  rw [h1, h2]
  ring

lemma haversine_core_nonneg (P Q L : ℝ) :
    0 ≤ Real.sin ((Q - P) / 2) * Real.sin ((Q - P) / 2) +
      Real.cos P * Real.cos Q * Real.sin (L / 2) * Real.sin (L / 2) := by
  rw [haversine_core_eq]
  have hu2 := Real.cos_le_one (Q - P)
  have hv1 := Real.neg_one_le_cos (Q + P)
  have hs1 : 0 ≤ Real.sin (L / 2) * Real.sin (L / 2) := mul_self_nonneg _
  have hs2 : Real.sin (L / 2) * Real.sin (L / 2) ≤ 1 := by
    nlinarith [Real.neg_one_le_sin (L / 2), Real.sin_le_one (L / 2)]
  nlinarith [mul_nonneg (sub_nonneg.2 hu2) (sub_nonneg.2 hs2),
    mul_nonneg (by linarith : (0 : ℝ) ≤ 1 + Real.cos (Q + P)) hs1]

lemma haversine_core_le_one (P Q L : ℝ) :
    Real.sin ((Q - P) / 2) * Real.sin ((Q - P) / 2) +
      Real.cos P * Real.cos Q * Real.sin (L / 2) * Real.sin (L / 2) ≤ 1 := by
  rw [haversine_core_eq]
  have hu1 := Real.neg_one_le_cos (Q - P)
  have hv2 := Real.cos_le_one (Q + P)
  have hs1 : 0 ≤ Real.sin (L / 2) * Real.sin (L / 2) := mul_self_nonneg _
  have hs2 : Real.sin (L / 2) * Real.sin (L / 2) ≤ 1 := by
    nlinarith [Real.neg_one_le_sin (L / 2), Real.sin_le_one (L / 2)]
  nlinarith [mul_nonneg (by linarith : (0 : ℝ) ≤ 1 + Real.cos (Q - P))
      (sub_nonneg.2 hs2),
    mul_nonneg (sub_nonneg.2 hv2) hs1]

lemma haversine_a_expand (lat1 lon1 lat2 lon2 : ℝ) :
    haversine_a lat1 lon1 lat2 lon2 =
      Real.sin ((radians lat2 - radians lat1) / 2) *
          Real.sin ((radians lat2 - radians lat1) / 2) +
        Real.cos (radians lat1) * Real.cos (radians lat2) *
          Real.sin (radians (lon2 - lon1) / 2) *
          Real.sin (radians (lon2 - lon1) / 2) := by
  show Real.sin (radians (lat2 - lat1) / 2) * Real.sin (radians (lat2 - lat1) / 2) +
      Real.cos (radians lat1) * Real.cos (radians lat2) *
        Real.sin (radians (lon2 - lon1) / 2) *
        Real.sin (radians (lon2 - lon1) / 2) = _
  rw [show radians (lat2 - lat1) = radians lat2 - radians lat1 by
    unfold radians; ring]

lemma haversine_a_nonneg (lat1 lon1 lat2 lon2 : ℝ) :
    0 ≤ haversine_a lat1 lon1 lat2 lon2 := by
  rw [haversine_a_expand]
  exact haversine_core_nonneg (radians lat1) (radians lat2)
    (radians (lon2 - lon1))

lemma haversine_a_le_one (lat1 lon1 lat2 lon2 : ℝ) :
    haversine_a lat1 lon1 lat2 lon2 ≤ 1 := by
  rw [haversine_a_expand]
  exact haversine_core_le_one (radians lat1) (radians lat2)
    (radians (lon2 - lon1))

lemma haversine_a_symm (lat1 lon1 lat2 lon2 : ℝ) :
    haversine_a lat1 lon1 lat2 lon2 = haversine_a lat2 lon2 lat1 lon1 := by
  rw [haversine_a_expand, haversine_a_expand]
  have e1 : Real.sin ((radians lat1 - radians lat2) / 2) =
      -Real.sin ((radians lat2 - radians lat1) / 2) := by
    rw [show (radians lat1 - radians lat2) / 2 =
      -((radians lat2 - radians lat1) / 2) by ring, Real.sin_neg]
  have e2 : Real.sin (radians (lon1 - lon2) / 2) =
      -Real.sin (radians (lon2 - lon1) / 2) := by
    rw [show radians (lon1 - lon2) / 2 = -(radians (lon2 - lon1) / 2) by
      unfold radians; ring, Real.sin_neg]
  rw [e1, e2]
  ring

/-- Unfolding lemma for calculate_true_course, used to evaluate it. -/
lemma calculate_true_course_eq (lat1 lon1 lat2 lon2 : ℝ) :
    calculate_true_course lat1 lon1 lat2 lon2 =
      pyRound1 (pymod (degrees (atan2
        (Real.sin (radians (lon2 - lon1)) * Real.cos (radians lat2))
        (Real.cos (radians lat1) * Real.sin (radians lat2) -
          Real.sin (radians lat1) * Real.cos (radians lat2) *
            Real.cos (radians (lon2 - lon1)))) + 360) 360) := rfl

/-- Claim C7: the true course between identical start and end points is
defined and equals 0, from the atan2(0, 0) = 0 convention. -/
theorem c7_theorem (lat lon : ℝ) : calculate_true_course lat lon lat lon = 0 := by
  rw [calculate_true_course_eq]
  have h0 : radians (lon - lon) = 0 := by unfold radians; ring
  rw [h0, Real.sin_zero, Real.cos_zero]
  rw [show (0 : ℝ) * Real.cos (radians lat) = 0 by ring]
  rw [show Real.cos (radians lat) * Real.sin (radians lat) -
      Real.sin (radians lat) * Real.cos (radians lat) * 1 = 0 by ring]
  rw [atan2_zero_zero]
  rw [show degrees 0 = 0 by unfold degrees; ring]
  rw [show (0 : ℝ) + 360 = 360 by ring]
  rw [pymod_eq_sub (by norm_num) (by norm_num) (by norm_num)]
  rw [show (360 : ℝ) - 360 = 0 by ring]
  exact pyRound1_zero

/-- Claim C3: the flight-time step fails exactly when the ground speed is
nonpositive, and otherwise returns the flight time as the rounded-up
number of minutes distance / ground_speed * 60. -/
theorem c3_theorem (wca_deg ground_speed distance_nm : ℝ) :
    (flight_time_step wca_deg ground_speed distance_nm =
        FTOutcome.groundSpeedTooLow ↔ ground_speed ≤ 0) ∧
      (0 < ground_speed →
        flight_time_step wca_deg ground_speed distance_nm =
          FTOutcome.ok wca_deg ground_speed ⌈distance_nm / ground_speed * 60⌉) := by
  unfold flight_time_step
  constructor
  · constructor
    · intro h
      by_contra hgs
      rw [if_neg hgs] at h
      exact FTOutcome.noConfusion h
    · intro h
      rw [if_pos h]
  · intro h
    rw [if_neg (not_le.2 h)]

/-- Witness for C3 at ground speed 1, distance 1. -/
theorem c3_witness : flight_time_step 0 1 1 = FTOutcome.ok 0 1 60 := by
  have h := (c3_theorem 0 1 1).2 one_pos
  rw [show ⌈(1 : ℝ) / 1 * 60⌉ = (60 : ℤ) by norm_num] at h
  exact h

/-- Claim C4: whenever the argument handed to math.asin lies outside
the interval from -1 to 1, the flight-time computation reports the
recoverable wind-too-strong failure instead of crashing. -/
theorem c4_theorem (wind_dir wind_speed mag_course distance_nm : ℝ)
    (h : 1 < |asinArg wind_dir wind_speed mag_course|) :
    calculate_flight_time wind_dir wind_speed mag_course distance_nm =
      FTOutcome.windTooStrong := by
  simp only [calculate_flight_time]
  rw [if_pos h]

/-- Witness for C4: a 240-knot wind at right angles to the course. -/
theorem c4_witness :
    calculate_flight_time 90 240 0 1 = FTOutcome.windTooStrong := by
  apply c4_theorem
  have h1 : asinArg 90 240 0 = 2 := by
    unfold asinArg magnetic_variation true_air_speed
    rw [show (0 : ℝ) - 0 = 0 by ring]
    rw [show radians 0 = 0 by unfold radians; ring]
    rw [show radians 90 - 0 = π / 2 by unfold radians; ring]
    rw [Real.sin_pi_div_two]
    norm_num
  rw [h1]
  norm_num

/-- Claim C5: the great-circle distance is symmetric in its two points,
within the stated tolerance (indeed exactly). -/
theorem c5_theorem (lat1 lon1 lat2 lon2 : ℝ) (h1 : |lat1| ≤ 180)
    (h2 : |lon1| ≤ 180) (h3 : |lat2| ≤ 180) (h4 : |lon2| ≤ 180) :
    |calculate_distance lat1 lon1 lat2 lon2 -
      calculate_distance lat2 lon2 lat1 lon1| ≤ 1 / 1000000 := by
  unfold calculate_distance
  rw [haversine_a_symm lat1 lon1 lat2 lon2, sub_self, abs_zero]
  norm_num

/-- Witness for C5 at a concrete pair of coordinates. -/
theorem c5_witness :
    |calculate_distance 1 2 3 4 - calculate_distance 3 4 1 2| ≤ 1 / 1000000 :=
  c5_theorem 1 2 3 4 (by norm_num) (by norm_num) (by norm_num) (by norm_num)

/-- Claim C8: whenever the square-root evaluation inside
calculate_distance would fail (argument of math.sqrt negative), the
function returns 0 through the reporting except branch instead of letting
the exception escape. -/
theorem c8_theorem (a : ℝ) (h : a < 0 ∨ 1 - a < 0) : distance_from_a a = 0 := by
  unfold distance_from_a
  rw [if_pos h]

/-- Witness for C8 at the out-of-domain intermediate value -1. -/
theorem c8_witness : distance_from_a (-1) = 0 :=
  c8_theorem (-1) (Or.inl (by norm_num))

/-- Claim C10 (amended): for every input, not only for physical latitudes,
the haversine intermediate lies in the closed interval from 0 to 1, the
square roots are defined, the exception branch of calculate_distance is
unreachable, and the returned distance is non-negative. -/
theorem c10_theorem (lat1 lon1 lat2 lon2 : ℝ) :
    0 ≤ haversine_a lat1 lon1 lat2 lon2 ∧
      haversine_a lat1 lon1 lat2 lon2 ≤ 1 ∧
      calculate_distance lat1 lon1 lat2 lon2 =
        pyRound1 (EARTH_RADIUS_NM *
          (2 * atan2 (Real.sqrt (haversine_a lat1 lon1 lat2 lon2))
            (Real.sqrt (1 - haversine_a lat1 lon1 lat2 lon2)))) ∧
      0 ≤ calculate_distance lat1 lon1 lat2 lon2 := by
  have hb1 := haversine_a_nonneg lat1 lon1 lat2 lon2
  have hb2 := haversine_a_le_one lat1 lon1 lat2 lon2
  have hcond : ¬(haversine_a lat1 lon1 lat2 lon2 < 0 ∨
      1 - haversine_a lat1 lon1 lat2 lon2 < 0) := by
    push_neg
    constructor <;> linarith
  have heq : calculate_distance lat1 lon1 lat2 lon2 =
      pyRound1 (EARTH_RADIUS_NM *
        (2 * atan2 (Real.sqrt (haversine_a lat1 lon1 lat2 lon2))
          (Real.sqrt (1 - haversine_a lat1 lon1 lat2 lon2)))) := by
    unfold calculate_distance distance_from_a
    rw [if_neg hcond]
  refine ⟨hb1, hb2, heq, ?_⟩
  rw [heq]
  apply pyRound1_nonneg
  apply mul_nonneg
  · unfold EARTH_RADIUS_NM
    norm_num
  · exact mul_nonneg (by norm_num) (atan2_nonneg (Real.sqrt_nonneg _))

/-- Counterexample for C10 as stated: there is no accepted input at all,
in particular none with a latitude beyond the physical range, on which the
haversine intermediate is negative. -/
theorem c10_counterexample :
    ¬ ∃ lat1 lon1 lat2 lon2 : ℝ,
      (|lat1| ≤ 180 ∧ |lon1| ≤ 180 ∧ |lat2| ≤ 180 ∧ |lon2| ≤ 180) ∧
        haversine_a lat1 lon1 lat2 lon2 < 0 := by
  rintro ⟨l1, o1, l2, o2, -, hneg⟩
  exact absurd (haversine_a_nonneg l1 o1 l2 o2) (not_le.2 hneg)

/-! Helper lemmas for the hardcoded flight-time scenario. -/

lemma asinArg_script_eq : asinArg 180 90 86 = (90 / 120) * Real.sin (radians 94) := by
  unfold asinArg magnetic_variation true_air_speed
  rw [show radians 180 - radians (86 - 0) = radians 94 by unfold radians; ring]

lemma radians94_pos : 0 < radians 94 := by
  unfold radians
  have := pi_pos
  linarith

lemma radians94_lt_pi : radians 94 < π := by
  unfold radians
  have := pi_pos
  linarith

lemma sin_radians94_pos : 0 < Real.sin (radians 94) :=
  sin_pos_of_pos_of_lt_pi radians94_pos radians94_lt_pi

lemma asinArg_script_pos : 0 < asinArg 180 90 86 := by
  rw [asinArg_script_eq]
  exact mul_pos (by norm_num) sin_radians94_pos

lemma asinArg_script_le : asinArg 180 90 86 ≤ 3 / 4 := by
  rw [asinArg_script_eq]
  have h := Real.sin_le_one (radians 94)
  nlinarith

lemma script_round_ne : pyRound1 ((86 : ℝ) - magnetic_variation) ≠ pyRound1 180 := by
  unfold magnetic_variation
  rw [show (86 : ℝ) - 0 = ((86 : ℤ) : ℝ) by norm_num, pyRound1_eval_int,
    show (180 : ℝ) = ((180 : ℤ) : ℝ) by norm_num, pyRound1_eval_int]
  norm_num

/-- Claim C2: after a successful wind-correction-angle computation, the
headwind special case (wind direction equal to the true course after
rounding to one decimal) yields ground speed TAS - wind speed; otherwise
the general formula wind_speed * sin(wind_dir - true_course - wca) /
sin(wca) is used, and a zero sin(wca) in that branch yields the reported
division-by-zero failure instead of a number. -/
theorem c2_theorem (wind_dir wind_speed mag_course distance_nm : ℝ)
    (h : ¬ 1 < |asinArg wind_dir wind_speed mag_course|)
    (h2 : ¬ 1 < |wind_speed / true_air_speed|) :
    (pyRound1 (mag_course - magnetic_variation) = pyRound1 wind_dir →
        calculate_flight_time wind_dir wind_speed mag_course distance_nm =
          flight_time_step
            (degrees (Real.arcsin (asinArg wind_dir wind_speed mag_course)))
            (true_air_speed - wind_speed) distance_nm) ∧
      (pyRound1 (mag_course - magnetic_variation) ≠ pyRound1 wind_dir →
        Real.sin (Real.arcsin (asinArg wind_dir wind_speed mag_course)) ≠ 0 →
        calculate_flight_time wind_dir wind_speed mag_course distance_nm =
          flight_time_step
            (degrees (Real.arcsin (asinArg wind_dir wind_speed mag_course)))
            (wind_speed * Real.sin (radians wind_dir -
                radians (mag_course - magnetic_variation) -
                Real.arcsin (asinArg wind_dir wind_speed mag_course)) /
              Real.sin (Real.arcsin (asinArg wind_dir wind_speed mag_course)))
            distance_nm) ∧
      (pyRound1 (mag_course - magnetic_variation) ≠ pyRound1 wind_dir →
        Real.sin (Real.arcsin (asinArg wind_dir wind_speed mag_course)) = 0 →
        calculate_flight_time wind_dir wind_speed mag_course distance_nm =
          FTOutcome.groundSpeedFail) := by
  have hmain : calculate_flight_time wind_dir wind_speed mag_course distance_nm =
      if pyRound1 (mag_course - magnetic_variation) = pyRound1 wind_dir then
        flight_time_step
          (degrees (Real.arcsin (asinArg wind_dir wind_speed mag_course)))
          (true_air_speed - wind_speed) distance_nm
      else if Real.sin (Real.arcsin (asinArg wind_dir wind_speed mag_course)) = 0 then
        FTOutcome.groundSpeedFail
      else
        flight_time_step
          (degrees (Real.arcsin (asinArg wind_dir wind_speed mag_course)))
          (wind_speed * Real.sin (radians wind_dir -
              radians (mag_course - magnetic_variation) -
              Real.arcsin (asinArg wind_dir wind_speed mag_course)) /
            Real.sin (Real.arcsin (asinArg wind_dir wind_speed mag_course)))
          distance_nm := by
    simp only [calculate_flight_time, degrees_radians]
    rw [if_neg h, if_neg h2]
  refine ⟨fun hc => by rw [hmain, if_pos hc],
    fun hc hs => by rw [hmain, if_neg hc, if_neg hs],
    fun hc hs => by rw [hmain, if_neg hc, if_pos hs]⟩

/-- Witness for C2 at the hardcoded script inputs, which take the general
branch with a nonzero sin(wca). -/
theorem c2_witness :
    calculate_flight_time 180 90 86 37.2 =
      flight_time_step (degrees (Real.arcsin (asinArg 180 90 86)))
        (90 * Real.sin (radians 180 - radians (86 - magnetic_variation) -
            Real.arcsin (asinArg 180 90 86)) /
          Real.sin (Real.arcsin (asinArg 180 90 86))) 37.2 := by
  have hpos := asinArg_script_pos
  have hle := asinArg_script_le
  have hnotgt : ¬ 1 < |asinArg 180 90 86| := by
    rw [abs_of_pos hpos]
    linarith
  have hws : ¬ 1 < |(90 : ℝ) / true_air_speed| := by
    unfold true_air_speed
    rw [abs_of_nonneg (by norm_num : (0 : ℝ) ≤ 90 / 120)]
    norm_num
  have hs : Real.sin (Real.arcsin (asinArg 180 90 86)) ≠ 0 := by
    rw [sin_arcsin (by linarith) (by linarith)]
    exact ne_of_gt hpos
  exact (c2_theorem 180 90 86 37.2 hnotgt hws).2.1 script_round_ne hs

lemma sin_arcsin_script :
    Real.sin (Real.arcsin ((90 / 120) * Real.sin (radians 94))) =
      (90 / 120) * Real.sin (radians 94) := by
  have h1 : 0 < (90 / 120 : ℝ) * Real.sin (radians 94) :=
    mul_pos (by norm_num) sin_radians94_pos
  have h2 : (90 / 120 : ℝ) * Real.sin (radians 94) ≤ 3 / 4 := by
    have h := Real.sin_le_one (radians 94)
    nlinarith
  exact sin_arcsin (by linarith) (by linarith)

lemma script_ground_speed_pos :
    0 < 90 * Real.sin (radians 94 -
        Real.arcsin ((90 / 120) * Real.sin (radians 94))) /
      Real.sin (Real.arcsin ((90 / 120) * Real.sin (radians 94))) := by
  have hA : 0 < (90 / 120 : ℝ) * Real.sin (radians 94) :=
    mul_pos (by norm_num) sin_radians94_pos
  have hnum : 0 < Real.sin (radians 94 -
      Real.arcsin ((90 / 120) * Real.sin (radians 94))) := by
    apply sin_pos_of_pos_of_lt_pi
    · have h1 : Real.arcsin ((90 / 120) * Real.sin (radians 94)) ≤ π / 2 :=
        arcsin_le_pi_div_two _
      have h2 : π / 2 < radians 94 := by
        unfold radians
        have := pi_pos
        linarith
      linarith
    · have h3 : 0 ≤ Real.arcsin ((90 / 120) * Real.sin (radians 94)) :=
        arcsin_nonneg.2 hA.le
      have h4 := radians94_lt_pi
      linarith
  rw [sin_arcsin_script]
  exact div_pos (mul_pos (by norm_num) hnum) hA

/-- Claim C9: on the hardcoded inputs wind 180 degrees at 90 knots,
magnetic course 86, TAS 120, distance 37.2 NM and variation 0, the script
takes the general branch and reports exactly the wind-triangle values
wca = asin((90/120) sin 94), ground speed 90 sin(94 - wca)/sin(wca) (in
degree terms; radians internally) and flight time
ceil(37.2 / ground_speed * 60) minutes. -/
theorem c9_theorem :
    calculate_flight_time 180 90 86 37.2 =
      FTOutcome.ok
        (degrees (Real.arcsin ((90 / 120) * Real.sin (radians 94))))
        (90 * Real.sin (radians 94 -
            Real.arcsin ((90 / 120) * Real.sin (radians 94))) /
          Real.sin (Real.arcsin ((90 / 120) * Real.sin (radians 94))))
        ⌈(37.2 : ℝ) / (90 * Real.sin (radians 94 -
            Real.arcsin ((90 / 120) * Real.sin (radians 94))) /
          Real.sin (Real.arcsin ((90 / 120) * Real.sin (radians 94)))) * 60⌉ := by
  have hA : 0 < (90 / 120 : ℝ) * Real.sin (radians 94) :=
    mul_pos (by norm_num) sin_radians94_pos
  have hle : (90 / 120 : ℝ) * Real.sin (radians 94) ≤ 3 / 4 := by
    have h := Real.sin_le_one (radians 94)
    nlinarith
  have hnotgt : ¬ 1 < |asinArg 180 90 86| := by
    rw [asinArg_script_eq, abs_of_pos hA]
    linarith
  have hws : ¬ 1 < |(90 : ℝ) / true_air_speed| := by
    unfold true_air_speed
    rw [abs_of_nonneg (by norm_num : (0 : ℝ) ≤ 90 / 120)]
    norm_num
  simp only [calculate_flight_time, degrees_radians]
  rw [if_neg hnotgt, if_neg hws, if_neg script_round_ne, asinArg_script_eq]
  rw [show radians 180 - radians ((86 : ℝ) - magnetic_variation) = radians 94 by
    unfold radians magnetic_variation; ring]
  rw [if_neg (by rw [sin_arcsin_script]; exact ne_of_gt hA)]
  unfold flight_time_step
  rw [if_neg (not_le.2 script_ground_speed_pos)]

/-! Helper lemmas for the normalization claim. -/

lemma pyRound1_exists_int (x : ℝ) : ∃ n : ℤ, pyRound1 x = (n : ℝ) / 10 :=
  ⟨round (10 * x), rfl⟩

lemma pyRound1_pymod_360 (z : ℝ) :
    0 ≤ pyRound1 (pymod z 360) ∧ pyRound1 (pymod z 360) ≤ 360 := by
  have h0 : 0 ≤ pymod z 360 := pymod_nonneg z (by norm_num)
  have h1 : pymod z 360 < 360 := pymod_lt z (by norm_num)
  unfold pyRound1
  constructor
  · apply div_nonneg _ (by norm_num)
    exact_mod_cast round_ge_zero (by linarith)
  · have h2 : round (10 * pymod z 360) ≤ (3600 : ℤ) :=
      round_le_int (by push_cast; linarith)
    have h3 : ((round (10 * pymod z 360) : ℤ) : ℝ) ≤ 3600 := by exact_mod_cast h2
    linarith

lemma calculate_true_course_bounds (lat1 lon1 lat2 lon2 : ℝ) :
    0 ≤ calculate_true_course lat1 lon1 lat2 lon2 ∧
      calculate_true_course lat1 lon1 lat2 lon2 ≤ 360 := by
  rw [calculate_true_course_eq]
  exact pyRound1_pymod_360 _

lemma pymod_int_div_ten (m : ℤ) :
    pymod ((m : ℝ) / 10) 360 = ((m % 3600 : ℤ) : ℝ) / 10 := by
  have hf := Int.fract_div_intCast_eq_div_intCast_mod (k := ℝ) (m := m) (n := 3600)
  rw [Int.fract] at hf
  push_cast at hf
  unfold pymod
  rw [show ((m : ℝ) / 10) / 360 = (m : ℝ) / 3600 by ring]
  linarith [hf]

lemma calculate_magnetic_course_snd (lat1 lon1 lat2 lon2 : ℝ) :
    (calculate_magnetic_course lat1 lon1 lat2 lon2).2 =
      pyRound1 (pymod (calculate_true_course lat1 lon1 lat2 lon2 +
        MAGNETIC_VARIATION + 360) 360) := rfl

lemma magnetic_course_snd_mem (lat1 lon1 lat2 lon2 : ℝ) :
    0 ≤ (calculate_magnetic_course lat1 lon1 lat2 lon2).2 ∧
      (calculate_magnetic_course lat1 lon1 lat2 lon2).2 < 360 := by
  obtain ⟨n, hn⟩ := pyRound1_exists_int
    (pymod (degrees (atan2
      (Real.sin (radians (lon2 - lon1)) * Real.cos (radians lat2))
      (Real.cos (radians lat1) * Real.sin (radians lat2) -
        Real.sin (radians lat1) * Real.cos (radians lat2) *
          Real.cos (radians (lon2 - lon1)))) + 360) 360)
  have htc : calculate_true_course lat1 lon1 lat2 lon2 = (n : ℝ) / 10 := by
    rw [calculate_true_course_eq]
    exact hn
  rw [calculate_magnetic_course_snd, htc]
  rw [show (MAGNETIC_VARIATION : ℝ) = -41 / 10 by unfold MAGNETIC_VARIATION; norm_num]
  rw [show (n : ℝ) / 10 + -41 / 10 + 360 = ((n + 3559 : ℤ) : ℝ) / 10 by
    push_cast; ring]
  rw [pymod_int_div_ten, pyRound1_int_div]
  have h1 : 0 ≤ (n + 3559) % 3600 := Int.emod_nonneg _ (by norm_num)
  have h2 : (n + 3559) % 3600 < 3600 := Int.emod_lt_of_pos _ (by norm_num)
  constructor
  · apply div_nonneg _ (by norm_num)
    exact_mod_cast h1
  · have h2b : (n + 3559) % 3600 ≤ 3599 := by omega
    have h3 : (((n + 3559) % 3600 : ℤ) : ℝ) ≤ 3599 := by exact_mod_cast h2b
    linarith

/-- Claim C1 (amended): for every accepted pair of coordinates the true
course lies in the closed interval from 0 to 360 (the value 360 itself is
attained, since the rounding to one decimal happens after the
normalization), and the magnetic-course component lies in [0, 360). -/
theorem c1_theorem (lat1 lon1 lat2 lon2 : ℝ) (h1 : |lat1| ≤ 180)
    (h2 : |lon1| ≤ 180) (h3 : |lat2| ≤ 180) (h4 : |lon2| ≤ 180) :
    0 ≤ calculate_true_course lat1 lon1 lat2 lon2 ∧
      calculate_true_course lat1 lon1 lat2 lon2 ≤ 360 ∧
      0 ≤ (calculate_magnetic_course lat1 lon1 lat2 lon2).2 ∧
      (calculate_magnetic_course lat1 lon1 lat2 lon2).2 < 360 := by
  obtain ⟨ha, hb⟩ := calculate_true_course_bounds lat1 lon1 lat2 lon2
  obtain ⟨hc, hd⟩ := magnetic_course_snd_mem lat1 lon1 lat2 lon2
  exact ⟨ha, hb, hc, hd⟩

/-- Witness for C1 at the origin pair. -/
theorem c1_witness :
    0 ≤ calculate_true_course 0 0 0 0 ∧
      calculate_true_course 0 0 0 0 ≤ 360 ∧
      0 ≤ (calculate_magnetic_course 0 0 0 0).2 ∧
      (calculate_magnetic_course 0 0 0 0).2 < 360 :=
  c1_theorem 0 0 0 0 (by norm_num) (by norm_num) (by norm_num) (by norm_num)

/-- Counterexample for C1 as stated: on the accepted input with start
(0, 0) and destination (45, -1/25), the bearing is a fraction of a degree
below 360, the normalization yields a value in [359.95, 360), and the
subsequent rounding to one decimal returns exactly 360, which is outside
the half-open interval [0, 360). -/
theorem c1_counterexample :
    calculate_true_course 0 0 45 (-1 / 25) = 360 ∧
      ¬ calculate_true_course 0 0 45 (-1 / 25) < 360 := by
  have hmain : calculate_true_course 0 0 45 (-1 / 25) = 360 := by
    rw [calculate_true_course_eq]
    rw [show (-1 / 25 : ℝ) - 0 = -(1 / 25) by ring]
    rw [show radians (-(1 / 25)) = -(π / 4500) by unfold radians; ring]
    rw [show radians 0 = 0 by unfold radians; ring]
    rw [show radians 45 = π / 4 by unfold radians; ring]
    rw [Real.sin_zero, Real.cos_zero, Real.sin_neg]
    rw [show (1 : ℝ) * Real.sin (π / 4) - 0 * Real.cos (π / 4) *
        Real.cos (-(π / 4500)) = Real.sin (π / 4) by ring]
    have hsin4 : 0 < Real.sin (π / 4) := by
      apply sin_pos_of_pos_of_lt_pi
      · linarith [pi_pos]
      · linarith [pi_pos]
    rw [atan2_of_pos_x hsin4]
    rw [Real.cos_pi_div_four, Real.sin_pi_div_four]
    have hsqrt : Real.sqrt 2 / 2 ≠ 0 := by
      have h2 : 0 < Real.sqrt 2 := Real.sqrt_pos.2 (by norm_num)
      positivity
    rw [show -Real.sin (π / 4500) * (Real.sqrt 2 / 2) / (Real.sqrt 2 / 2) =
        -Real.sin (π / 4500) by field_simp; ring]
    rw [show (-Real.sin (π / 4500) : ℝ) = -(Real.sin (π / 4500)) by ring,
      Real.arctan_neg]
    have hs_pos : 0 < Real.sin (π / 4500) := by
      apply sin_pos_of_pos_of_lt_pi
      · linarith [pi_pos]
      · linarith [pi_pos]
    have hs_lt : Real.sin (π / 4500) < π / 4500 :=
      Real.sin_lt (by linarith [pi_pos])
    have hB_pos : 0 < Real.arctan (Real.sin (π / 4500)) := arctan_pos_of hs_pos
    have hB_lt : Real.arctan (Real.sin (π / 4500)) < π / 4500 :=
      lt_of_le_of_lt (arctan_le_self_of hs_pos.le) hs_lt
    have hratio : 0 < 180 / π := by
      have := pi_pos
      positivity
    have hkey : (π / 4500) * (180 / π) = 1 / 25 := by
      field_simp
      ring
    have hD_lt : degrees (-(Real.arctan (Real.sin (π / 4500)))) < 0 := by
      unfold degrees
      exact mul_neg_of_neg_of_pos (by linarith) hratio
    have hD_gt : -(1 / 25) < degrees (-(Real.arctan (Real.sin (π / 4500)))) := by
      unfold degrees
      have hmul : Real.arctan (Real.sin (π / 4500)) * (180 / π) <
          (π / 4500) * (180 / π) := mul_lt_mul_of_pos_right hB_lt hratio
      rw [hkey] at hmul
      linarith
    set D := degrees (-(Real.arctan (Real.sin (π / 4500)))) with hD
    rw [pymod_eq_self (by norm_num) (by linarith) (by linarith)]
    unfold pyRound1
    have hround : round (10 * (D + 360)) = 3600 := by
      rw [round_eq, Int.floor_eq_iff]
      constructor
      · push_cast
        linarith
      · push_cast
        linarith
    rw [hround]
    norm_num
  exact ⟨hmain, by rw [hmain]; exact lt_irrefl 360⟩

/-! Helper lemmas for the back-bearing claim. -/

lemma pyRound1_bounds {x : ℝ} {p q : ℤ} (hp : (p : ℝ) ≤ 10 * x)
    (hq : 10 * x ≤ (q : ℝ)) :
    (p : ℝ) / 10 ≤ pyRound1 x ∧ pyRound1 x ≤ (q : ℝ) / 10 := by
  unfold pyRound1
  have h1 : p ≤ round (10 * x) := round_ge_int hp
  have h2 : round (10 * x) ≤ q := by
    have h3 := round_mono_le hq
    rwa [round_intCast] at h3
  constructor
  · have h4 : (p : ℝ) ≤ ((round (10 * x) : ℤ) : ℝ) := by exact_mod_cast h1
    linarith
  · have h5 : ((round (10 * x) : ℤ) : ℝ) ≤ (q : ℝ) := by exact_mod_cast h2
    linarith

lemma arctan_sqrt_two_gt : π / 4 < arctan (Real.sqrt 2) := by
  have h1 : (1 : ℝ) < Real.sqrt 2 := by
    rw [show (1 : ℝ) = Real.sqrt 1 by rw [Real.sqrt_one]]
    exact Real.sqrt_lt_sqrt (by norm_num) (by norm_num)
  have h2 := arctan_strictMono h1
  rwa [Real.arctan_one] at h2

lemma arctan_sqrt_two_lt : arctan (Real.sqrt 2) < π / 3 := by
  have h1 : Real.sqrt 2 < Real.sqrt 3 :=
    Real.sqrt_lt_sqrt (by norm_num) (by norm_num)
  have h2 := arctan_strictMono h1
  rwa [show Real.arctan (Real.sqrt 3) = π / 3 by
    rw [← Real.tan_pi_div_three]
    exact Real.arctan_tan (by linarith [pi_pos]) (by linarith [pi_pos])] at h2

lemma tc_forward_bounds :
    45 ≤ calculate_true_course 45 0 45 90 ∧
      calculate_true_course 45 0 45 90 ≤ 60 := by
  rw [calculate_true_course_eq]
  rw [show (90 : ℝ) - 0 = 90 by ring]
  rw [show radians (90 : ℝ) = π / 2 by unfold radians; ring]
  rw [show radians (45 : ℝ) = π / 4 by unfold radians; ring]
  rw [Real.sin_pi_div_two, Real.cos_pi_div_two]
  rw [show Real.cos (π / 4) * Real.sin (π / 4) -
      Real.sin (π / 4) * Real.cos (π / 4) * 0 =
      Real.cos (π / 4) * Real.sin (π / 4) by ring]
  have hc : 0 < Real.cos (π / 4) := by
    rw [Real.cos_pi_div_four]
    positivity
  have hs : 0 < Real.sin (π / 4) := by
    rw [Real.sin_pi_div_four]
    positivity
  rw [atan2_of_pos_x (mul_pos hc hs)]
  rw [Real.cos_pi_div_four, Real.sin_pi_div_four]
  have hs2 : Real.sqrt 2 * Real.sqrt 2 = 2 := Real.mul_self_sqrt (by norm_num)
  rw [show 1 * (Real.sqrt 2 / 2) / (Real.sqrt 2 / 2 * (Real.sqrt 2 / 2)) =
      Real.sqrt 2 by
    rw [show Real.sqrt 2 / 2 * (Real.sqrt 2 / 2) = 1 / 2 by
      linear_combination hs2 / 4]
    field_simp]
  have hratio : 0 < 180 / π := by positivity
  have hd1 : 45 < degrees (arctan (Real.sqrt 2)) := by
    unfold degrees
    have h := mul_lt_mul_of_pos_right arctan_sqrt_two_gt hratio
    rw [show π / 4 * (180 / π) = 45 by field_simp; ring] at h
    linarith
  have hd2 : degrees (arctan (Real.sqrt 2)) < 60 := by
    unfold degrees
    have h := mul_lt_mul_of_pos_right arctan_sqrt_two_lt hratio
    rw [show π / 3 * (180 / π) = 60 by field_simp; ring] at h
    linarith
  rw [pymod_eq_sub (by norm_num) (by linarith) (by linarith)]
  rw [show degrees (arctan (Real.sqrt 2)) + 360 - 360 =
      degrees (arctan (Real.sqrt 2)) by ring]
  have hb := pyRound1_bounds (x := degrees (arctan (Real.sqrt 2)))
    (p := 450) (q := 600) (by push_cast; linarith) (by push_cast; linarith)
  constructor
  · have h6 := hb.1
    push_cast at h6
    linarith
  · have h7 := hb.2
    push_cast at h7
    linarith

lemma tc_backward_bounds :
    300 ≤ calculate_true_course 45 90 45 0 ∧
      calculate_true_course 45 90 45 0 ≤ 315 := by
  rw [calculate_true_course_eq]
  rw [show (0 : ℝ) - 90 = -(90) by ring]
  rw [show radians (-(90) : ℝ) = -(π / 2) by unfold radians; ring]
  rw [show radians (45 : ℝ) = π / 4 by unfold radians; ring]
  rw [Real.sin_neg, Real.cos_neg, Real.sin_pi_div_two, Real.cos_pi_div_two]
  rw [show Real.cos (π / 4) * Real.sin (π / 4) -
      Real.sin (π / 4) * Real.cos (π / 4) * 0 =
      Real.cos (π / 4) * Real.sin (π / 4) by ring]
  have hc : 0 < Real.cos (π / 4) := by
    rw [Real.cos_pi_div_four]
    positivity
  have hs : 0 < Real.sin (π / 4) := by
    rw [Real.sin_pi_div_four]
    positivity
  rw [atan2_of_pos_x (mul_pos hc hs)]
  rw [Real.cos_pi_div_four, Real.sin_pi_div_four]
  have hs2 : Real.sqrt 2 * Real.sqrt 2 = 2 := Real.mul_self_sqrt (by norm_num)
  rw [show -1 * (Real.sqrt 2 / 2) / (Real.sqrt 2 / 2 * (Real.sqrt 2 / 2)) =
      -(Real.sqrt 2) by
    rw [show Real.sqrt 2 / 2 * (Real.sqrt 2 / 2) = 1 / 2 by
      linear_combination hs2 / 4]
    field_simp]
  rw [Real.arctan_neg]
  have hratio : 0 < 180 / π := by positivity
  have hd1 : -(60 : ℝ) < degrees (-arctan (Real.sqrt 2)) := by
    unfold degrees
    have h := mul_lt_mul_of_pos_right arctan_sqrt_two_lt hratio
    rw [show π / 3 * (180 / π) = 60 by field_simp; ring] at h
    have heq : -arctan (Real.sqrt 2) * (180 / π) =
        -(arctan (Real.sqrt 2) * (180 / π)) := by ring
    rw [heq]
    linarith
  have hd2 : degrees (-arctan (Real.sqrt 2)) < -(45 : ℝ) := by
    unfold degrees
    have h := mul_lt_mul_of_pos_right arctan_sqrt_two_gt hratio
    rw [show π / 4 * (180 / π) = 45 by field_simp; ring] at h
    have heq : -arctan (Real.sqrt 2) * (180 / π) =
        -(arctan (Real.sqrt 2) * (180 / π)) := by ring
    rw [heq]
    linarith
  rw [pymod_eq_self (by norm_num) (by linarith) (by linarith)]
  have hb := pyRound1_bounds (x := degrees (-arctan (Real.sqrt 2)) + 360)
    (p := 3000) (q := 3150) (by push_cast; linarith) (by push_cast; linarith)
  constructor
  · have h6 := hb.1
    push_cast at h6
    linarith
  · have h7 := hb.2
    push_cast at h7
    linarith

/-- Counterexample for C6 as stated: for the distinct points (45, 0) and
(45, 90) the forward course lies in [45, 60] and the backward course in
[300, 315], so their difference modulo 360 lies in [240, 270] and misses
180 by at least 60 degrees, far beyond the 1e-6 tolerance. -/
theorem c6_counterexample :
    1 / 1000000 < |pymod (calculate_true_course 45 90 45 0 -
        calculate_true_course 45 0 45 90) 360 - 180| := by
  obtain ⟨hf1, hf2⟩ := tc_forward_bounds
  obtain ⟨hb1, hb2⟩ := tc_backward_bounds
  rw [pymod_eq_self (by norm_num) (by linarith) (by linarith)]
  rw [abs_of_nonneg (by linarith)]
  linarith

/-- Claim C6 (amended): the back bearing differs from the forward bearing
by exactly 180 degrees modulo 360 for distinct points on the equator with
an eastward longitude difference below 180 degrees; in general the two
initial great-circle bearings of a route do not differ by 180 degrees. -/
theorem c6_theorem (lon1 lon2 : ℝ) (h1 : 0 < lon2 - lon1)
    (h2 : lon2 - lon1 < 180) :
    pymod (calculate_true_course 0 lon2 0 lon1 -
      calculate_true_course 0 lon1 0 lon2) 360 = 180 := by
  have hy : 0 < Real.sin (radians (lon2 - lon1)) := by
    apply sin_pos_of_pos_of_lt_pi
    · unfold radians
      apply mul_pos h1
      positivity
    · unfold radians
      nlinarith [mul_pos pi_pos (show (0 : ℝ) < 180 - (lon2 - lon1) by linarith)]
  have hfwd : calculate_true_course 0 lon1 0 lon2 = 90 := by
    rw [calculate_true_course_eq]
    rw [show radians (0 : ℝ) = 0 by unfold radians; ring]
    rw [Real.sin_zero, Real.cos_zero, mul_one]
    rw [show (1 : ℝ) * 0 - 0 * 1 * Real.cos (radians (lon2 - lon1)) = 0 by ring]
    rw [atan2_pos_y_zero hy]
    rw [show degrees (π / 2) = 90 by unfold degrees; field_simp; ring]
    rw [show (90 : ℝ) + 360 = 450 by norm_num]
    rw [pymod_eq_sub (by norm_num) (by norm_num) (by norm_num)]
    rw [show (450 : ℝ) - 360 = 90 by norm_num]
    rw [show (90 : ℝ) = ((90 : ℤ) : ℝ) by norm_num, pyRound1_eval_int]
  have hbwd : calculate_true_course 0 lon2 0 lon1 = 270 := by
    rw [calculate_true_course_eq]
    rw [show radians (0 : ℝ) = 0 by unfold radians; ring]
    rw [Real.sin_zero, Real.cos_zero, mul_one]
    rw [show (1 : ℝ) * 0 - 0 * 1 * Real.cos (radians (lon1 - lon2)) = 0 by ring]
    rw [show radians (lon1 - lon2) = -(radians (lon2 - lon1)) by
      unfold radians; ring]
    rw [Real.sin_neg]
    rw [atan2_neg_y_zero (neg_lt_zero.2 hy)]
    rw [show degrees (-(π / 2)) = -90 by unfold degrees; field_simp; ring]
    rw [show (-90 : ℝ) + 360 = 270 by norm_num]
    rw [pymod_eq_self (by norm_num) (by norm_num) (by norm_num)]
    rw [show (270 : ℝ) = ((270 : ℤ) : ℝ) by norm_num, pyRound1_eval_int]
  rw [hfwd, hbwd]
  rw [show (270 : ℝ) - 90 = 180 by norm_num]
  exact pymod_eq_self (by norm_num) (by norm_num) (by norm_num)

/-- Witness for C6 on the equator between longitudes 0 and 90. -/
theorem c6_witness :
    pymod (calculate_true_course 0 90 0 0 -
      calculate_true_course 0 0 0 90) 360 = 180 :=
  c6_theorem 0 90 (by norm_num) (by norm_num)
